import Mathlib

/-!
Shallow embedding of the motion-control core of the "飞檐走壁" (wall-climbing)
line-following smart car: the electromagnetic sensor-fusion pipeline
(`inductor.c`), the PID control laws (`pid.c`), the track-element recognition
state machine (`element.c`), and the fixed-period control orchestrator
(`system.c`, bundled in `system.h`).

Machine integers are embedded as `Nat`/`Int`; unsigned wrap-around and
narrowing casts are made explicit with `% 256`, `% 65536` and `toInt16`.
C integer division truncates toward zero, which is `Int.tdiv` in Lean, so all
divisions of possibly-negative quantities are written with `Int.tdiv`.
-/

namespace Smartcar

/-- Truncation of a mathematical integer to a two's-complement `int16`,
modelling the C casts `(int16)x` of wider values (Keil C251 wraps). -/
def toInt16 (x : Int) : Int := (x + 32768) % 65536 - 32768

/-- Modelled from the spec: `car_config.h` is not under `src/`; `ABS_VALUE`
is the integer absolute-value helper macro used by `element.c`
("pitch angle magnitude", "error-jump magnitude"). -/
def ABS_VALUE (x : Int) : Int := |x|

/-- Modelled from the spec: `car_config.h` is not under `src/`; `LIMIT_RANGE`
is the clamping macro used by `system.c` ("each clamped to the motor's rated
range"). -/
def LIMIT_RANGE (x lo hi : Int) : Int :=
  if x < lo then lo else if x > hi then hi else x

/-! ## Sensor fusion unit (`src/code/inductor.c`) -/

/-- `fast_sqrt` from `inductor.c` lines 48–80: integer Newton iteration with a
range-based seed, three refinement steps, result cast to `uint16`. -/
def fast_sqrt (val : Nat) : Nat :=
  if val = 0 then 0
  else if val = 1 then 1
  else
    let result : Nat :=
      if val < 256 then 8
      else if val < 4096 then 32
      else if val < 65536 then 128
      else 256
    let temp := (result + val / result) / 2
    let result := (temp + val / temp) / 2
    let result := (result + val / result) / 2
    result % 65536

/-- Offline-detection threshold `INDUCTOR_OFFLINE_THRESHOLD` from
`inductor.c` line 35. -/
def INDUCTOR_OFFLINE_THRESHOLD : Nat := 20

/-- Verification helper for `fast_sqrt`: `v` passes when the result `r`
satisfies `(r - 1)² ≤ v ≤ (r + 1)²`, the integer form of
`|r - √v| ≤ 1` over the reals. -/
def sqrtCheck (v : Nat) : Bool :=
  let r := fast_sqrt v
  Nat.ble ((r - 1) * (r - 1)) v && Nat.ble v ((r + 1) * (r + 1))

/-- Verification helper: `checkRange fuel lo n` checks `sqrtCheck` on the
interval `[lo, lo + n)` by binary splitting (so that kernel reduction stays
shallow), defined with a bare `Nat.rec` on the fuel to keep it cheap for the
kernel to unfold. -/
def checkRange : Nat → Nat → Nat → Bool :=
  Nat.rec (motive := fun _ => Nat → Nat → Bool)
    (fun _ n => n == 0)
    (fun _ ih lo n =>
      if n == 0 then true
      else if n == 1 then sqrtCheck lo
      else ih lo (n / 2) && ih (lo + n / 2) (n - n / 2))

/-- `normalize_inductor` from `inductor.c` lines 126–138: clamp `raw` into
`[min_val, max_val]`, then rescale by `(raw - min) * 100 / (max - min)` and
cast to `uint8`.  The C code divides by `max_val - min_val` relying on the
calibration invariant `max > min`. -/
def normalize_inductor (raw min_val max_val : Nat) : Nat :=
  let raw := if raw < min_val then min_val else raw
  let raw := if raw > max_val then max_val else raw
  ((raw - min_val) * 100 / (max_val - min_val)) % 256

/-- The per-side vector-magnitude computation of `Inductor_Update`
(`inductor.c` lines 171–185): `√(x² + y²)` by `fast_sqrt`, stored in a
`uint8` field and then saturated at 100. -/
def Inductor_Magnitude (x y : Nat) : Nat :=
  let sq := x * x + y * y
  let magnitude := fast_sqrt sq % 256
  if magnitude > 100 then 100 else magnitude

/-- The fused per-tick output of `Inductor_Update` (fields of
`g_inductor.vector`). -/
structure InductorVector where
  left_magnitude : Nat
  right_magnitude : Nat
  error : Int
  sum : Nat
  is_online : Bool
  deriving Repr, DecidableEq

/-- Step 4 of `Inductor_Update` (`inductor.c` lines 192–212): the
ratio-difference law applied to the two (already saturated) magnitudes.
`sum` and `diff` are `int16` locals; `g_inductor.vector.sum` is a `uint8`
field, hence the `% 256`; `error = -(diff * 100) / (sum + 1)` with C
truncating division. -/
def Inductor_Fuse (left_magnitude right_magnitude : Nat) : InductorVector :=
  let sum : Int := (left_magnitude : Int) + (right_magnitude : Int)
  let diff : Int := (left_magnitude : Int) - (right_magnitude : Int)
  let sumStored : Nat := sum.toNat % 256
  if sum < (INDUCTOR_OFFLINE_THRESHOLD : Int) then
    { left_magnitude, right_magnitude, error := 0, sum := sumStored, is_online := false }
  else
    { left_magnitude, right_magnitude,
      error := Int.tdiv (-(diff * 100)) (sum + 1),
      sum := sumStored, is_online := true }

/-- The calibration arrays `s_calibration_min` / `s_calibration_max` of
`inductor.c` lines 27–32: four channels each. -/
structure Calibration where
  cal_min : Fin 4 → Nat
  cal_max : Fin 4 → Nat

/-- `Inductor_SetCalibration` from `inductor.c` lines 246–253: writes both
arrays at `channel` only when `channel < 4`. -/
def Inductor_SetCalibration (cal : Calibration) (channel min_val max_val : Nat) :
    Calibration :=
  if h : channel < 4 then
    { cal_min := Function.update cal.cal_min ⟨channel, h⟩ min_val,
      cal_max := Function.update cal.cal_max ⟨channel, h⟩ max_val }
  else cal

/-! ## PID engine (`src/user/pid.c`)

The C controller stores `float` gains `Kp, Ki, Kd` and computes each term as
`(int32)(K * (float)e)`.  The embedding leaves the floating-point evaluation
abstract: each gain is carried as the integer function
`e ↦ (int32)(K * (float)e)`, and every theorem below is quantified over all
such functions, hence holds for whatever values the C float arithmetic
produces.  All other state is plain 16/32-bit integer state. -/

structure PID_Controller where
  Kp : Int → Int
  Ki : Int → Int
  Kd : Int → Int
  error_now : Int
  error_last : Int
  error_prev : Int
  integral : Int
  integral_max : Int
  output : Int
  output_max : Int

/-- `PID_Init` from `pid.c` lines 19–38: gains set, error history, integral
and output zeroed, `integral_max = out_max / 2`, `output_max = out_max`. -/
def PID_Init (kp ki kd : Int → Int) (out_max : Int) : PID_Controller :=
  { Kp := kp, Ki := ki, Kd := kd,
    error_now := 0, error_last := 0, error_prev := 0,
    integral := 0, integral_max := Int.tdiv out_max 2,
    output := 0, output_max := out_max }

/-- `PID_Incremental` from `pid.c` lines 55–91: shift the error history,
accumulate `Δu = P + I + D` into `output`, clamp `output` to
`±output_max`.  Returns the updated controller and the returned `int32`. -/
def PID_Incremental (pid : PID_Controller) (target feedback : Int) :
    PID_Controller × Int :=
  let error_prev := pid.error_last
  let error_last := pid.error_now
  let error_now := target - feedback
  let p_term := pid.Kp (error_now - error_last)
  let i_term := pid.Ki error_now
  let d_term := pid.Kd (error_now - 2 * error_last + error_prev)
  let delta_output := p_term + i_term + d_term
  let output := pid.output + delta_output
  let output :=
    if output > pid.output_max then pid.output_max
    else if output < -pid.output_max then -pid.output_max
    else output
  ({ pid with error_prev, error_last, error_now, output }, output)

/-- `PID_Positional` from `pid.c` lines 104–146: shift the error history,
accumulate the integral and clamp it to `±integral_max`, form
`u = P + I + D`, clamp `u` to `±output_max`. -/
def PID_Positional (pid : PID_Controller) (target feedback : Int) :
    PID_Controller × Int :=
  let error_last := pid.error_now
  let error_now := target - feedback
  let p_term := pid.Kp error_now
  let integral := pid.integral + error_now
  let integral :=
    if integral > pid.integral_max then pid.integral_max
    else if integral < -pid.integral_max then -pid.integral_max
    else integral
  let i_term := pid.Ki integral
  let d_term := pid.Kd (error_now - error_last)
  let output := p_term + i_term + d_term
  let output :=
    if output > pid.output_max then pid.output_max
    else if output < -pid.output_max then -pid.output_max
    else output
  ({ pid with error_last, error_now, integral, output }, output)

/-- `PID_Reset` from `pid.c` lines 155–162. -/
def PID_Reset (pid : PID_Controller) : PID_Controller :=
  { pid with error_now := 0, error_last := 0, error_prev := 0,
             integral := 0, output := 0 }

/-- `PID_SetParams` from `pid.c` lines 171–176. -/
def PID_SetParams (pid : PID_Controller) (kp ki kd : Int → Int) :
    PID_Controller :=
  { pid with Kp := kp, Ki := ki, Kd := kd }

/-- One compute call fed to a controller: either `PID_Incremental` or
`PID_Positional`, with its `(target, feedback)` arguments. -/
inductive PIDCall where
  | incremental (target feedback : Int)
  | positional (target feedback : Int)

/-- Apply one compute call (state part). -/
def PID_Step (pid : PID_Controller) : PIDCall → PID_Controller
  | .incremental target feedback => (PID_Incremental pid target feedback).1
  | .positional target feedback => (PID_Positional pid target feedback).1

/-- Feed a finite sequence of compute calls to a controller. -/
def PID_Run (pid : PID_Controller) (calls : List PIDCall) : PID_Controller :=
  calls.foldl PID_Step pid

/-- Feed a finite sequence of `(target, feedback)` pairs to `PID_Positional`
(state part). -/
def PID_RunPositional (pid : PID_Controller) (ticks : List (Int × Int)) :
    PID_Controller :=
  ticks.foldl (fun pid tf => (PID_Positional pid tf.1 tf.2).1) pid

/-! ## Element recognizer (`src/user/element.c`, thresholds from `element.h`) -/

/-- `ElementType_t` from `element.h`. -/
inductive ElementType where
  | ELEM_NONE
  | ELEM_STRAIGHT
  | ELEM_ZIGZAG_45
  | ELEM_TURN_90
  | ELEM_HEXAGON
  | ELEM_CROSS
  deriving Repr, DecidableEq

/-- `ElementState_t` from `element.h`. -/
inductive ElementState where
  | ELEM_STATE_IDLE
  | ELEM_STATE_ENTER
  | ELEM_STATE_RUNNING
  | ELEM_STATE_EXIT
  | ELEM_STATE_RECOVER
  deriving Repr, DecidableEq

/-- `RoundaboutDir_t` from `element.h`. -/
inductive RoundaboutDir where
  | ROUNDABOUT_NONE
  | ROUNDABOUT_LEFT
  | ROUNDABOUT_RIGHT
  deriving Repr, DecidableEq

open ElementType ElementState RoundaboutDir

/-- Detection thresholds from `element.h` lines 196–230. -/
def ZIGZAG_ERROR_JUMP_THRESHOLD : Int := 40

/-- `ZIGZAG_JUMP_TIME_WINDOW` from `element.h` line 197. -/
def ZIGZAG_JUMP_TIME_WINDOW : Nat := 3

/-- `TURN90_LOW_THRESHOLD` from `element.h` line 204. -/
def TURN90_LOW_THRESHOLD : Nat := 15

/-- `TURN90_HIGH_THRESHOLD` from `element.h` line 205. -/
def TURN90_HIGH_THRESHOLD : Nat := 70

/-- `TURN90_GYRO_THRESHOLD` from `element.h` line 206. -/
def TURN90_GYRO_THRESHOLD : Int := 50

/-- `TURN90_STEP_OUTPUT` from `element.h` line 207. -/
def TURN90_STEP_OUTPUT : Int := 2000

/-- `HEXAGON_ENTRY_SUM_THRESHOLD` from `element.h` line 213. -/
def HEXAGON_ENTRY_SUM_THRESHOLD : Nat := 150

/-- `HEXAGON_YAW_COMPLETE_ANGLE` from `element.h` line 215. -/
def HEXAGON_YAW_COMPLETE_ANGLE : Int := 300

/-- `CROSS_BOTH_HIGH_THRESHOLD` from `element.h` line 222. -/
def CROSS_BOTH_HIGH_THRESHOLD : Nat := 80

/-- `CROSS_HOLD_TIME` from `element.h` line 223. -/
def CROSS_HOLD_TIME : Nat := 4

/-- `OFFLINE_EMERGENCY_TIME` from `element.h` line 229 (20 ticks × 5 ms). -/
def OFFLINE_EMERGENCY_TIME : Nat := 20

/-- `OFFLINE_WALL_PITCH_THRESHOLD` from `element.h` line 230 (degrees). -/
def OFFLINE_WALL_PITCH_THRESHOLD : Int := 20

/-- `ErrorHistory_t` from `element.h`: ring buffer of the last 8 errors.
`index` is a `uint8` always masked with `& 0x07`, kept `< 8` here. -/
structure ErrorHistory where
  error : Fin 8 → Int
  index : Nat

/-- `ElementData_t` from `element.h`.  `offline_cnt` is a `uint8`
(wraps mod 256, made explicit at each increment); `emergency_flag` is a
`uint8` used as a boolean (only 0/1 are ever stored). -/
structure ElementData where
  current_element : ElementType
  state : ElementState
  roundabout_dir : RoundaboutDir
  yaw_integral : Int
  distance_cnt : Int
  distance_target : Int
  offline_cnt : Nat
  last_valid_error : Int
  emergency_flag : Bool
  error_history : ErrorHistory
  direction_offset : Int
  speed_scale : Nat

/-- The `static` locals persisting inside `Element_DetectHexagon`
(`entry_cnt`, `side_accumulate`) and `Element_DetectCross` (`cross_cnt`). -/
structure DetectorStatics where
  entry_cnt : Nat
  side_accumulate : Int
  cross_cnt : Nat

/-- The per-tick arguments of `Element_Update` (`element.c` lines 82–89). -/
structure ElementInputs where
  inductor_error : Int
  left_magnitude : Nat
  right_magnitude : Nat
  inductor_sum : Nat
  is_online : Bool
  gyro_z : Int
  pitch_angle : Int
  encoder_delta : Int

/-- `Element_Init` from `element.c` lines 41–72. -/
def Element_Init : ElementData :=
  { current_element := ELEM_NONE, state := ELEM_STATE_IDLE,
    roundabout_dir := ROUNDABOUT_NONE, yaw_integral := 0,
    distance_cnt := 0, distance_target := 0,
    offline_cnt := 0, last_valid_error := 0, emergency_flag := false,
    error_history := { error := fun _ => 0, index := 0 },
    direction_offset := 0, speed_scale := 100 }

/-- `Element_CalcErrorJump` from `element.c` lines 450–463: newest sample
minus the sample `ZIGZAG_JUMP_TIME_WINDOW` ticks back in the ring buffer. -/
def Element_CalcErrorJump (h : ErrorHistory) : Int :=
  let current_idx := (h.index + 7) % 8
  let prev_idx := (h.index + 7 - ZIGZAG_JUMP_TIME_WINDOW) % 8
  h.error ⟨current_idx, Nat.mod_lt _ (by decide)⟩ -
    h.error ⟨prev_idx, Nat.mod_lt _ (by decide)⟩

/-- `Element_DetectZigzag` from `element.c` lines 254–274. -/
def Element_DetectZigzag (e : ElementData) (_error : Int)
    (left_mag right_mag : Nat) : ElementData :=
  let jump := Element_CalcErrorJump e.error_history
  if ABS_VALUE jump > ZIGZAG_ERROR_JUMP_THRESHOLD ∧ left_mag + right_mag > 40 then
    { e with current_element := ELEM_ZIGZAG_45, state := ELEM_STATE_ENTER,
             speed_scale := 85 }
  else e

/-- `Element_DetectTurn90` from `element.c` lines 284–308. -/
def Element_DetectTurn90 (e : ElementData) (_error : Int)
    (left_mag right_mag : Nat) (gyro_z : Int) : ElementData :=
  let is_left_low := left_mag < TURN90_LOW_THRESHOLD
  let is_right_low := right_mag < TURN90_LOW_THRESHOLD
  let is_left_high := left_mag > TURN90_HIGH_THRESHOLD
  let is_right_high := right_mag > TURN90_HIGH_THRESHOLD
  if ((is_left_low ∧ is_right_high) ∨ (is_right_low ∧ is_left_high)) ∧
      ABS_VALUE (Int.tdiv gyro_z 16) < TURN90_GYRO_THRESHOLD then
    { e with current_element := ELEM_TURN_90, state := ELEM_STATE_ENTER,
             speed_scale := 70 }
  else e

/-- `Element_DetectHexagon` from `element.c` lines 318–367.
`entry_cnt` is a `static uint8`, `side_accumulate` a `static int16`;
`(int16)(left_mag - right_mag)` promotes both `uint8`s to `int` first, so it
is the plain signed difference. -/
def Element_DetectHexagon (e : ElementData) (d : DetectorStatics) (_error : Int)
    (left_mag right_mag : Nat) (sum : Nat) (_gyro_z _encoder_delta : Int) :
    ElementData × DetectorStatics :=
  if sum > HEXAGON_ENTRY_SUM_THRESHOLD / 2 then
    let entry_cnt := (d.entry_cnt + 1) % 256
    let side_accumulate := d.side_accumulate + ((left_mag : Int) - (right_mag : Int))
    if entry_cnt > 5 then
      let e' :=
        if side_accumulate > 100 then
          { e with current_element := ELEM_HEXAGON,
                   roundabout_dir := ROUNDABOUT_RIGHT,
                   state := ELEM_STATE_ENTER, speed_scale := 75 }
        else if side_accumulate < -100 then
          { e with current_element := ELEM_HEXAGON,
                   roundabout_dir := ROUNDABOUT_LEFT,
                   state := ELEM_STATE_ENTER, speed_scale := 75 }
        else e
      (e', { d with entry_cnt := 0, side_accumulate := 0 })
    else
      (e, { d with entry_cnt, side_accumulate })
  else
    (e, { d with entry_cnt := 0, side_accumulate := 0 })

/-- `Element_DetectCross` from `element.c` lines 377–403 (`cross_cnt` is a
`static uint8`). -/
def Element_DetectCross (e : ElementData) (d : DetectorStatics)
    (left_mag right_mag : Nat) (_sum : Nat) : ElementData × DetectorStatics :=
  if left_mag > CROSS_BOTH_HIGH_THRESHOLD ∧ right_mag > CROSS_BOTH_HIGH_THRESHOLD then
    let cross_cnt := (d.cross_cnt + 1) % 256
    if cross_cnt ≥ CROSS_HOLD_TIME then
      ({ e with current_element := ELEM_CROSS, state := ELEM_STATE_ENTER,
                speed_scale := 90 },
       { d with cross_cnt := 0 })
    else
      (e, { d with cross_cnt })
  else
    (e, { d with cross_cnt := 0 })

/-- `Element_HandleOffline` from `element.c` lines 414–439. -/
def Element_HandleOffline (e : ElementData) (is_online : Bool)
    (pitch_angle : Int) (error : Int) : ElementData :=
  if is_online then
    { e with offline_cnt := 0, last_valid_error := error, emergency_flag := false }
  else
    let offline_cnt := (e.offline_cnt + 1) % 256
    if offline_cnt > OFFLINE_EMERGENCY_TIME then
      if ABS_VALUE pitch_angle > OFFLINE_WALL_PITCH_THRESHOLD then
        { e with offline_cnt, emergency_flag := true }
      else
        { e with offline_cnt }
    else
      { e with offline_cnt }

/-- The `switch (g_element.state)` body of `Element_Update` (`element.c`
lines 111–243), reached only when `emergency_flag` is clear. -/
def Element_StateMachine (e : ElementData) (d : DetectorStatics)
    (i : ElementInputs) : ElementData × DetectorStatics :=
  match e.state with
  | ELEM_STATE_IDLE =>
    -- priority: hexagon roundabout > cross > 90° turn > zigzag
    let ed := Element_DetectHexagon e d i.inductor_error i.left_magnitude
        i.right_magnitude i.inductor_sum i.gyro_z i.encoder_delta
    let ed :=
      if ed.1.current_element = ELEM_NONE then
        Element_DetectCross ed.1 ed.2 i.left_magnitude i.right_magnitude
          i.inductor_sum
      else ed
    let ed :=
      if ed.1.current_element = ELEM_NONE then
        (Element_DetectTurn90 ed.1 i.inductor_error i.left_magnitude
          i.right_magnitude i.gyro_z, ed.2)
      else ed
    let ed :=
      if ed.1.current_element = ELEM_NONE then
        (Element_DetectZigzag ed.1 i.inductor_error i.left_magnitude
          i.right_magnitude, ed.2)
      else ed
    ed
  | ELEM_STATE_ENTER =>
    ({ e with state := ELEM_STATE_RUNNING, distance_cnt := 0, yaw_integral := 0 }, d)
  | ELEM_STATE_RUNNING =>
    let e := { e with distance_cnt := e.distance_cnt + i.encoder_delta,
                      yaw_integral := e.yaw_integral + Int.tdiv i.gyro_z 16 }
    let e :=
      match e.current_element with
      | ELEM_ZIGZAG_45 =>
        if ABS_VALUE (Element_CalcErrorJump e.error_history) <
            ZIGZAG_ERROR_JUMP_THRESHOLD / 2 then
          { e with state := ELEM_STATE_EXIT }
        else e
      | ELEM_TURN_90 =>
        let e :=
          if i.left_magnitude > i.right_magnitude then
            { e with direction_offset := -TURN90_STEP_OUTPUT }
          else
            { e with direction_offset := TURN90_STEP_OUTPUT }
        if ABS_VALUE i.inductor_error < 30 ∧
            i.left_magnitude > 30 ∧ i.right_magnitude > 30 then
          { e with state := ELEM_STATE_EXIT }
        else e
      | ELEM_HEXAGON =>
        let e :=
          if e.roundabout_dir = ROUNDABOUT_LEFT then
            { e with direction_offset := -800 }
          else
            { e with direction_offset := 800 }
        if ABS_VALUE e.yaw_integral > HEXAGON_YAW_COMPLETE_ANGLE * 16 then
          if ABS_VALUE i.inductor_error < 30 ∧ i.inductor_sum > 40 then
            { e with state := ELEM_STATE_EXIT }
          else e
        else e
      | ELEM_CROSS =>
        let e := { e with direction_offset := 0,
                          distance_cnt := e.distance_cnt + i.encoder_delta }
        if e.distance_cnt > 100 then
          { e with state := ELEM_STATE_EXIT }
        else e
      | _ => { e with state := ELEM_STATE_EXIT }
    (e, d)
  | ELEM_STATE_EXIT =>
    ({ e with state := ELEM_STATE_RECOVER }, d)
  | ELEM_STATE_RECOVER =>
    ({ e with current_element := ELEM_NONE, roundabout_dir := ROUNDABOUT_NONE,
              direction_offset := 0, speed_scale := 100,
              distance_cnt := 0, yaw_integral := 0,
              state := ELEM_STATE_IDLE }, d)

/-- Step 1 of `Element_Update` (`element.c` lines 94–95): write the error at
the current ring-buffer slot and advance the index with the `& 0x07` mask
(the write index is reduced mod 8 as well; the maintained invariant
`index < 8` makes this the identity). -/
def Element_PushHistory (e : ElementData) (inductor_error : Int) : ElementData :=
  let history := e.error_history
  { e with error_history := {
      error := Function.update history.error
        ⟨history.index % 8, Nat.mod_lt _ (by decide)⟩ inductor_error,
      index := (history.index + 1) % 8 } }

/-- `Element_Update` from `element.c` lines 82–244: push the error into the
ring buffer, run the offline/emergency handler, and — unless the emergency
flag is set — advance the state machine. -/
def Element_Update (e : ElementData) (d : DetectorStatics) (i : ElementInputs) :
    ElementData × DetectorStatics :=
  let e := Element_PushHistory e i.inductor_error
  let e := Element_HandleOffline e i.is_online i.pitch_angle i.inductor_error
  if e.emergency_flag then (e, d)
  else Element_StateMachine e d i

/-- A whole run of control ticks seen by the recognizer. -/
def Element_Run (ed : ElementData × DetectorStatics) (ticks : List ElementInputs) :
    ElementData × DetectorStatics :=
  ticks.foldl (fun ed i => Element_Update ed.1 ed.2 i) ed

/-! ## Control orchestrator (`system.c`, bundled in `src/user/system.h`) -/

/-- `SystemState_t` from `system.h`. -/
inductive SystemState where
  | SYS_STATE_IDLE
  | SYS_STATE_RUNNING
  | SYS_STATE_STOPPED
  | SYS_STATE_ERROR
  deriving Repr, DecidableEq

/-- `BluetoothCmd_t` from `src/code/bluetooth.h` lines 24–36. -/
inductive BluetoothCmd where
  | BT_CMD_NONE
  | BT_CMD_KP
  | BT_CMD_KI
  | BT_CMD_KD
  | BT_CMD_SPEED
  | BT_CMD_START
  | BT_CMD_STOP
  | BT_CMD_DEBUG
  | BT_CMD_FAN
  | BT_CMD_UNKNOWN
  deriving Repr, DecidableEq

open SystemState BluetoothCmd

/-- `SystemControl_t` from `system.h` lines 43–65 (the `g_system` instance). -/
structure SystemControl where
  state : SystemState
  target_speed : Int
  pid_speed_left : PID_Controller
  pid_speed_right : PID_Controller
  pid_direction : PID_Controller
  pitch_angle : Int
  roll_angle : Int
  yaw_rate : Int
  motor_left_pwm : Int
  motor_right_pwm : Int

/-- A command emitted to the motor driver (`motor.h`): `Motor_SetSpeed`,
`Motor_Stop` (PWM forced to 0) or `Motor_Brake` (short-circuit braking). -/
inductive MotorCommand where
  | setSpeed (left right : Int)
  | stop
  | brake
  deriving Repr, DecidableEq

/-- `System_Start` from `system.c` (lines 279–305 of the bundled file):
guarded by `state != SYS_STATE_RUNNING`; resets the three PID controllers,
defaults the target speed to 50 when it is 0, and enters the running state.
The fan-mode call and the buzzer are external actuators with no core state. -/
def System_Start (s : SystemControl) : SystemControl :=
  if s.state ≠ SYS_STATE_RUNNING then
    let s := { s with
      pid_speed_left := PID_Reset s.pid_speed_left,
      pid_speed_right := PID_Reset s.pid_speed_right,
      pid_direction := PID_Reset s.pid_direction }
    let s := if s.target_speed = 0 then { s with target_speed := 50 } else s
    { s with state := SYS_STATE_RUNNING }
  else s

/-- `System_Stop` from `system.c`: stops the motors (and the fan, external)
and records the stopped state. -/
def System_Stop (s : SystemControl) : SystemControl × MotorCommand :=
  ({ s with state := SYS_STATE_STOPPED }, MotorCommand.stop)

/-- `System_SetTargetSpeed` from `system.c`. -/
def System_SetTargetSpeed (s : SystemControl) (speed : Int) : SystemControl :=
  { s with target_speed := LIMIT_RANGE speed 0 200 }

/-- `System_CmdCallback` from `system.c` (lines 543–577 of the bundled
file).  `BT_CMD_FAN` and `BT_CMD_DEBUG` drive only external collaborators
(fan duty, serial debug dump) and leave the core state unchanged. -/
def System_CmdCallback (s : SystemControl) (cmd : BluetoothCmd) (value : Int) :
    SystemControl × Option MotorCommand :=
  match cmd with
  | BT_CMD_START => (System_Start s, none)
  | BT_CMD_STOP => let (s, m) := System_Stop s; (s, some m)
  | BT_CMD_SPEED => (System_SetTargetSpeed s value, none)
  | BT_CMD_FAN => (s, none)
  | BT_CMD_DEBUG => (s, none)
  | _ => (s, none)

/-- The external sensor snapshot consumed by one `System_Control` tick:
encoder feedback, the fused inductor reading, the raw IMU samples and the
key-module run gate. -/
structure ControlInputs where
  key_run : Bool
  speed_left_feedback : Int
  speed_right_feedback : Int
  vector : InductorVector
  acc_x : Int
  acc_z : Int
  gyro_z : Int

/-- `System_Control` from `system.c` (lines 331–433 of the bundled file),
the 5 ms periodic control task, parameterized by the `MOTOR_SPEED_MAX`
configuration constant (from `car_config.h`, not under `src/`).
Steps: key gate; sensor reads (taken from `ControlInputs`); approximate
pitch from the accelerometer; direction PID on the fused error with target
0; split into wheel targets, clamped; incremental wheel speed PIDs; emit
`Motor_SetSpeed` with the two PWM values.  The fan-duty adjustment drives an
external actuator.  Step 7 (`if (!Inductor_IsOnline())`) has an empty body.
The element recognizer is never consulted: neither `Element_Update` nor
`Element_IsEmergency` is called anywhere in this function. -/
def System_Control (MOTOR_SPEED_MAX : Int) (s : SystemControl)
    (i : ControlInputs) : SystemControl × Option MotorCommand :=
  if ¬i.key_run then (s, none)
  else
    let inductor_error := i.vector.error
    let s := if i.acc_z ≠ 0 then
        { s with pitch_angle := toInt16 (Int.tdiv (i.acc_x * 57) i.acc_z) }
      else s
    let s := { s with yaw_rate := Int.tdiv i.gyro_z 16 }
    let (pid_direction, dir_out) := PID_Positional s.pid_direction 0 inductor_error
    let s := { s with pid_direction }
    let direction_output := toInt16 dir_out
    let speed_left_target := toInt16 (s.target_speed + direction_output)
    let speed_right_target := toInt16 (s.target_speed - direction_output)
    let speed_left_target :=
      LIMIT_RANGE speed_left_target (-MOTOR_SPEED_MAX) MOTOR_SPEED_MAX
    let speed_right_target :=
      LIMIT_RANGE speed_right_target (-MOTOR_SPEED_MAX) MOTOR_SPEED_MAX
    let (pid_speed_left, out_left) :=
      PID_Incremental s.pid_speed_left speed_left_target i.speed_left_feedback
    let (pid_speed_right, out_right) :=
      PID_Incremental s.pid_speed_right speed_right_target i.speed_right_feedback
    let pwm_left := toInt16 out_left
    let pwm_right := toInt16 out_right
    let s := { s with pid_speed_left, pid_speed_right,
                      motor_left_pwm := pwm_left, motor_right_pwm := pwm_right }
    (s, some (MotorCommand.setSpeed pwm_left pwm_right))

/-- The whole mutable core state: `g_system`, `g_element` and the detector
statics. -/
structure GlobalState where
  system : SystemControl
  element : ElementData
  detect : DetectorStatics

/-- One 5 ms control tick at whole-state level.  The timer ISR body calls
only `System_Control`; `System_Control` neither reads nor writes `g_element`
or the detector statics (no call into `element.c` appears in it), so the
element part of the state passes through unchanged. -/
def System_ControlTick (MOTOR_SPEED_MAX : Int) (g : GlobalState)
    (i : ControlInputs) : GlobalState × Option MotorCommand :=
  let (system, cmd) := System_Control MOTOR_SPEED_MAX g.system i
  ({ g with system }, cmd)

/-- Processing one bluetooth command at whole-state level:
`System_CmdCallback` reads and writes only `g_system`; no function it calls
touches `g_element` or the detector statics. -/
def System_ProcessCmd (g : GlobalState) (cmd : BluetoothCmd) (value : Int) :
    GlobalState × Option MotorCommand :=
  let (system, m) := System_CmdCallback g.system cmd value
  ({ g with system }, m)

/-! ## Theorems -/

/-- C10: for every channel index `≥ 4` and any `(min_val, max_val)`,
`Inductor_SetCalibration` leaves both calibration arrays unchanged. -/
theorem setCalibration_out_of_range_noop (cal : Calibration)
    (channel min_val max_val : Nat) (h : 4 ≤ channel) :
    Inductor_SetCalibration cal channel min_val max_val = cal := by
  unfold Inductor_SetCalibration
  rw [dif_neg (by omega)]

/-- Witness for C10 at channel 5. -/
theorem setCalibration_out_of_range_noop_witness :
    4 ≤ 5 ∧
      Inductor_SetCalibration ⟨fun _ => 0, fun _ => 4095⟩ 5 7 9 =
        (⟨fun _ => 0, fun _ => 4095⟩ : Calibration) :=
  ⟨by decide, setCalibration_out_of_range_noop _ 5 7 9 (by decide)⟩

/-- C5: whenever `left_magnitude + right_magnitude` is below the offline
threshold, the fusion step reports `is_online = false` and
`steering_error = 0`, regardless of the individual magnitudes. -/
theorem fuse_offline (l r : Nat) (h : l + r < INDUCTOR_OFFLINE_THRESHOLD) :
    (Inductor_Fuse l r).is_online = false ∧ (Inductor_Fuse l r).error = 0 := by
  unfold INDUCTOR_OFFLINE_THRESHOLD at h
  simp only [Inductor_Fuse, INDUCTOR_OFFLINE_THRESHOLD]
  split
  · exact ⟨rfl, rfl⟩
  · rename_i hc; exfalso; push_cast at hc; omega

/-- Witness for C5 at magnitudes (9, 10). -/
theorem fuse_offline_witness :
    9 + 10 < INDUCTOR_OFFLINE_THRESHOLD ∧
      (Inductor_Fuse 9 10).is_online = false ∧ (Inductor_Fuse 9 10).error = 0 :=
  ⟨by decide, fuse_offline 9 10 (by decide)⟩

/-- Counterexample for C4: at magnitudes (51, 50) the sum 101 is above the
offline threshold and the left side is strictly stronger, but the computed
steering error is 0 — it has no sign at all, so the claim "its sign matches
the side with the greater magnitude" fails at this input. -/
theorem fuse_sign_counterexample :
    (Inductor_Fuse 51 50).is_online = true ∧ (51 : Nat) > 50 ∧
      (Inductor_Fuse 51 50).error = 0 ∧ ¬(Inductor_Fuse 51 50).error < 0 := by
  decide

/-- Helper for C4: the magnitude of the ratio-difference quotient is below
100, because `|left - right| ≤ left + right`. -/
theorem fuse_error_natAbs_lt (l r : Nat) :
    (Int.tdiv (-(((l : Int) - (r : Int)) * 100))
      ((l : Int) + (r : Int) + 1)).natAbs < 100 := by
  rw [Int.natAbs_tdiv, Int.natAbs_neg, Int.natAbs_mul]
  have h1 : ((l : Int) - (r : Int)).natAbs ≤ l + r := by omega
  have h2 : ((l : Int) + (r : Int) + 1).natAbs = l + r + 1 := by omega
  rw [h2]
  have h100 : ((100 : Int)).natAbs = 100 := rfl
  rw [h100]
  exact (Nat.div_lt_iff_lt_mul (by omega)).mpr (by omega)

/-- C4 (amended): for magnitudes with `sum ≥ threshold` the fusion step
reports `is_online = true` and
`steering_error = -(left - right) * 100 / (sum + 1)` (C truncating
division); the error lies in `[-100, 100]`, is nonpositive when the left
magnitude is greater and nonnegative when the right magnitude is greater
(it can be 0 even when the sides differ, so only the weak sign direction
holds). -/
theorem fuse_online_error_range_sign (l r : Nat)
    (h : INDUCTOR_OFFLINE_THRESHOLD ≤ l + r) :
    (Inductor_Fuse l r).is_online = true ∧
      (Inductor_Fuse l r).error =
        Int.tdiv (-(((l : Int) - (r : Int)) * 100)) ((l : Int) + (r : Int) + 1) ∧
      -100 ≤ (Inductor_Fuse l r).error ∧ (Inductor_Fuse l r).error ≤ 100 ∧
      (r < l → (Inductor_Fuse l r).error ≤ 0) ∧
      (l < r → 0 ≤ (Inductor_Fuse l r).error) := by
  unfold INDUCTOR_OFFLINE_THRESHOLD at h
  simp only [Inductor_Fuse, INDUCTOR_OFFLINE_THRESHOLD]
  split
  · rename_i hc; exfalso; push_cast at hc; omega
  · refine ⟨rfl, rfl, ?_, ?_, ?_, ?_⟩ <;> dsimp only
    · have hb := fuse_error_natAbs_lt l r
      omega
    · have hb := fuse_error_natAbs_lt l r
      omega
    · intro hlt
      have hnn := Int.tdiv_nonneg
        (show (0 : Int) ≤ ((l : Int) - (r : Int)) * 100 by omega)
        (show (0 : Int) ≤ (l : Int) + (r : Int) + 1 by omega)
      rw [Int.neg_tdiv]
      omega
    · intro hlt
      exact Int.tdiv_nonneg (by omega) (by omega)

/-- Witness for C4 at magnitudes (80, 20). -/
theorem fuse_online_error_range_sign_witness :
    INDUCTOR_OFFLINE_THRESHOLD ≤ 80 + 20 ∧
      ((Inductor_Fuse 80 20).is_online = true ∧
        (Inductor_Fuse 80 20).error =
          Int.tdiv (-((80 - 20) * 100)) (80 + 20 + 1) ∧
        -100 ≤ (Inductor_Fuse 80 20).error ∧ (Inductor_Fuse 80 20).error ≤ 100 ∧
        (20 < 80 → (Inductor_Fuse 80 20).error ≤ 0) ∧
        (80 < 20 → 0 ≤ (Inductor_Fuse 80 20).error)) :=
  ⟨by decide, fuse_online_error_range_sign 80 20 (by decide)⟩

/-- Helper: one incremental compute keeps the clamp bound (for a
nonnegative clamp). -/
theorem PID_Incremental_abs_output (pid : PID_Controller) (t f : Int)
    (h : 0 ≤ pid.output_max) :
    |((PID_Incremental pid t f).1).output| ≤ pid.output_max := by
  simp only [PID_Incremental]
  rw [abs_le]
  split_ifs <;> omega

/-- Helper: one positional compute keeps the clamp bound (for a
nonnegative clamp). -/
theorem PID_Positional_abs_output (pid : PID_Controller) (t f : Int)
    (h : 0 ≤ pid.output_max) :
    |((PID_Positional pid t f).1).output| ≤ pid.output_max := by
  simp only [PID_Positional]
  rw [abs_le]
  split_ifs <;> omega

/-- Helper: one positional compute keeps the anti-windup bound (for a
nonnegative integral clamp). -/
theorem PID_Positional_abs_integral (pid : PID_Controller) (t f : Int)
    (h : 0 ≤ pid.integral_max) :
    |((PID_Positional pid t f).1).integral| ≤ pid.integral_max := by
  simp only [PID_Positional]
  rw [abs_le]
  split_ifs <;> omega

/-- Helper: neither compute function changes `output_max`. -/
theorem PID_Step_output_max (pid : PID_Controller) (c : PIDCall) :
    (PID_Step pid c).output_max = pid.output_max := by
  cases c <;> rfl

/-- Helper: a compute step establishes the output bound from any prior
state. -/
theorem PID_Step_abs_output (pid : PID_Controller) (c : PIDCall)
    (h : 0 ≤ pid.output_max) : |(PID_Step pid c).output| ≤ pid.output_max := by
  cases c with
  | incremental t f => exact PID_Incremental_abs_output pid t f h
  | positional t f => exact PID_Positional_abs_output pid t f h

/-- Helper: after any nonempty run of compute calls the output respects the
clamp of the starting controller. -/
theorem PID_Run_abs_output (calls : List PIDCall) :
    ∀ pid : PID_Controller, calls ≠ [] → 0 ≤ pid.output_max →
      |(PID_Run pid calls).output| ≤ pid.output_max := by
  induction calls with
  | nil => intro pid hne _; exact absurd rfl hne
  | cons c rest ih =>
    intro pid _ hmax
    rcases eq_or_ne rest [] with hrest | hrest
    · subst hrest
      exact PID_Step_abs_output pid c hmax
    · have hstep : PID_Run pid (c :: rest) = PID_Run (PID_Step pid c) rest := rfl
      have h2 : (PID_Step pid c).output_max = pid.output_max :=
        PID_Step_output_max pid c
      rw [hstep, ← h2]
      exact ih (PID_Step pid c) hrest (h2 ▸ hmax)

/-- C2: a controller initialized with output clamp `out_max` keeps
`|output| ≤ out_max` after every compute call of any finite sequence of
`PID_Incremental` / `PID_Positional` calls with arbitrary (adversarial)
`(target, feedback)` inputs.  Quantifying over all call lists covers the
state after each intermediate call, since every prefix is itself such a
list. -/
theorem pid_output_never_exceeds_clamp (kp ki kd : Int → Int) (out_max : Int)
    (hmax : 0 ≤ out_max) (calls : List PIDCall) (hne : calls ≠ []) :
    |(PID_Run (PID_Init kp ki kd out_max) calls).output| ≤ out_max :=
  PID_Run_abs_output calls (PID_Init kp ki kd out_max) hne hmax

/-- Witness for C2: gains ×2/×1/×0, clamp 100, one adversarial call. -/
theorem pid_output_never_exceeds_clamp_witness :
    (0 : Int) ≤ 100 ∧ [PIDCall.incremental 30000 (-30000)] ≠ [] ∧
      |(PID_Run (PID_Init (fun e => 2 * e) (fun e => e) (fun _ => 0) 100)
        [PIDCall.incremental 30000 (-30000)]).output| ≤ 100 :=
  ⟨by decide, List.cons_ne_nil _ _,
    pid_output_never_exceeds_clamp (fun e => 2 * e) (fun e => e) (fun _ => 0)
      100 (by decide) _ (List.cons_ne_nil _ _)⟩

/-- Helper: a positional compute does not change `integral_max`. -/
theorem PID_Positional_integral_max (pid : PID_Controller) (t f : Int) :
    ((PID_Positional pid t f).1).integral_max = pid.integral_max := rfl

/-- Helper: after any nonempty run of positional computes the integral
respects the anti-windup clamp of the starting controller. -/
theorem PID_RunPositional_abs_integral (ticks : List (Int × Int)) :
    ∀ pid : PID_Controller, ticks ≠ [] → 0 ≤ pid.integral_max →
      |(PID_RunPositional pid ticks).integral| ≤ pid.integral_max := by
  induction ticks with
  | nil => intro pid hne _; exact absurd rfl hne
  | cons tf rest ih =>
    intro pid _ hmax
    rcases eq_or_ne rest [] with hrest | hrest
    · subst hrest
      exact PID_Positional_abs_integral pid tf.1 tf.2 hmax
    · have hstep : PID_RunPositional pid (tf :: rest) =
          PID_RunPositional ((PID_Positional pid tf.1 tf.2).1) rest := rfl
      have h2 := PID_Positional_integral_max pid tf.1 tf.2
      rw [hstep, ← h2]
      exact ih _ hrest (h2 ▸ hmax)

/-- C6: for a positional controller initialized with output clamp
`out_max`, after every `PID_Positional` call of any finite input sequence
the running integral satisfies `|integral| ≤ integral_max`
(with `integral_max = out_max / 2` as set by `PID_Init`), no matter how many
ticks of sustained (even maximal) error are applied. -/
theorem pid_positional_integral_clamped (kp ki kd : Int → Int) (out_max : Int)
    (hmax : 0 ≤ out_max) (ticks : List (Int × Int)) (hne : ticks ≠ []) :
    |(PID_RunPositional (PID_Init kp ki kd out_max) ticks).integral| ≤
      (PID_Init kp ki kd out_max).integral_max :=
  PID_RunPositional_abs_integral ticks (PID_Init kp ki kd out_max) hne
    (Int.tdiv_nonneg hmax (by decide))

/-- Witness for C6: clamp 100, three ticks of sustained maximal error. -/
theorem pid_positional_integral_clamped_witness :
    (0 : Int) ≤ 100 ∧ ([(30000, -30000), (30000, -30000), (30000, -30000)] :
        List (Int × Int)) ≠ [] ∧
      |(PID_RunPositional (PID_Init (fun e => e) (fun e => e) (fun _ => 0) 100)
          [(30000, -30000), (30000, -30000), (30000, -30000)]).integral| ≤
        (PID_Init (fun e => e) (fun e => e) (fun _ => 0) 100).integral_max :=
  ⟨by decide, List.cons_ne_nil _ _,
    pid_positional_integral_clamped (fun e => e) (fun e => e) (fun _ => 0) 100
      (by decide) _ (List.cons_ne_nil _ _)⟩

/-- Helper: the ring-buffer push touches only `error_history`. -/
theorem pushHistory_fields (e : ElementData) (err : Int) :
    (Element_PushHistory e err).state = e.state ∧
    (Element_PushHistory e err).current_element = e.current_element ∧
    (Element_PushHistory e err).distance_cnt = e.distance_cnt ∧
    (Element_PushHistory e err).yaw_integral = e.yaw_integral ∧
    (Element_PushHistory e err).offline_cnt = e.offline_cnt ∧
    (Element_PushHistory e err).emergency_flag = e.emergency_flag ∧
    (Element_PushHistory e err).roundabout_dir = e.roundabout_dir :=
  ⟨rfl, rfl, rfl, rfl, rfl, rfl, rfl⟩

/-- Helper: the offline handler touches only `offline_cnt`,
`last_valid_error` and `emergency_flag`. -/
theorem handleOffline_fields (e : ElementData) (o : Bool) (p err : Int) :
    (Element_HandleOffline e o p err).state = e.state ∧
    (Element_HandleOffline e o p err).current_element = e.current_element ∧
    (Element_HandleOffline e o p err).distance_cnt = e.distance_cnt ∧
    (Element_HandleOffline e o p err).yaw_integral = e.yaw_integral ∧
    (Element_HandleOffline e o p err).error_history = e.error_history ∧
    (Element_HandleOffline e o p err).roundabout_dir = e.roundabout_dir := by
  unfold Element_HandleOffline
  dsimp only
  split_ifs <;> exact ⟨rfl, rfl, rfl, rfl, rfl, rfl⟩

/-- Helper: the zigzag detector never touches `offline_cnt`. -/
theorem detectZigzag_offline_cnt (e : ElementData) (er : Int) (l r : Nat) :
    (Element_DetectZigzag e er l r).offline_cnt = e.offline_cnt := by
  unfold Element_DetectZigzag; dsimp only; split_ifs <;> rfl

/-- Helper: the zigzag detector never touches `emergency_flag`. -/
theorem detectZigzag_emergency (e : ElementData) (er : Int) (l r : Nat) :
    (Element_DetectZigzag e er l r).emergency_flag = e.emergency_flag := by
  unfold Element_DetectZigzag; dsimp only; split_ifs <;> rfl

/-- Helper: the 90°-turn detector never touches `offline_cnt`. -/
theorem detectTurn90_offline_cnt (e : ElementData) (er : Int) (l r : Nat)
    (g : Int) : (Element_DetectTurn90 e er l r g).offline_cnt = e.offline_cnt := by
  unfold Element_DetectTurn90; dsimp only; split_ifs <;> rfl

/-- Helper: the 90°-turn detector never touches `emergency_flag`. -/
theorem detectTurn90_emergency (e : ElementData) (er : Int) (l r : Nat)
    (g : Int) :
    (Element_DetectTurn90 e er l r g).emergency_flag = e.emergency_flag := by
  unfold Element_DetectTurn90; dsimp only; split_ifs <;> rfl

/-- Helper: the roundabout detector never touches `offline_cnt`. -/
theorem detectHexagon_offline_cnt (e : ElementData) (d : DetectorStatics)
    (er : Int) (l r s : Nat) (g dd : Int) :
    ((Element_DetectHexagon e d er l r s g dd).1).offline_cnt = e.offline_cnt := by
  unfold Element_DetectHexagon; dsimp only; split_ifs <;> rfl

/-- Helper: the roundabout detector never touches `emergency_flag`. -/
theorem detectHexagon_emergency (e : ElementData) (d : DetectorStatics)
    (er : Int) (l r s : Nat) (g dd : Int) :
    ((Element_DetectHexagon e d er l r s g dd).1).emergency_flag =
      e.emergency_flag := by
  unfold Element_DetectHexagon; dsimp only; split_ifs <;> rfl

/-- Helper: the crossing detector never touches `offline_cnt`. -/
theorem detectCross_offline_cnt (e : ElementData) (d : DetectorStatics)
    (l r s : Nat) :
    ((Element_DetectCross e d l r s).1).offline_cnt = e.offline_cnt := by
  unfold Element_DetectCross; dsimp only; split_ifs <;> rfl

/-- Helper: the crossing detector never touches `emergency_flag`. -/
theorem detectCross_emergency (e : ElementData) (d : DetectorStatics)
    (l r s : Nat) :
    ((Element_DetectCross e d l r s).1).emergency_flag = e.emergency_flag := by
  unfold Element_DetectCross; dsimp only; split_ifs <;> rfl

/-- Helper: the state machine (element detection and execution) never
touches `offline_cnt`. -/
theorem stateMachine_offline_cnt (e : ElementData) (d : DetectorStatics)
    (i : ElementInputs) :
    ((Element_StateMachine e d i).1).offline_cnt = e.offline_cnt := by
  unfold Element_StateMachine
  split
  · dsimp only
    split_ifs <;>
      simp only [detectZigzag_offline_cnt, detectTurn90_offline_cnt,
        detectCross_offline_cnt, detectHexagon_offline_cnt]
  · rfl
  · dsimp only
    split <;> first | (split_ifs <;> rfl) | rfl
  · rfl
  · rfl

/-- Helper: the state machine never touches `emergency_flag`. -/
theorem stateMachine_emergency (e : ElementData) (d : DetectorStatics)
    (i : ElementInputs) :
    ((Element_StateMachine e d i).1).emergency_flag = e.emergency_flag := by
  unfold Element_StateMachine
  split
  · dsimp only
    split_ifs <;>
      simp only [detectZigzag_emergency, detectTurn90_emergency,
        detectCross_emergency, detectHexagon_emergency]
  · rfl
  · dsimp only
    split <;> first | (split_ifs <;> rfl) | rfl
  · rfl
  · rfl

/-- Helper: an offline call to the handler increments the counter
(`uint8` wrap). -/
theorem handleOffline_offline_cnt (e : ElementData) (p err : Int) :
    (Element_HandleOffline e false p err).offline_cnt =
      (e.offline_cnt + 1) % 256 := by
  simp only [Element_HandleOffline, Bool.false_eq_true, if_false]
  split_ifs <;> rfl

/-- Helper: the offline branch of the handler never clears the emergency
flag. -/
theorem handleOffline_emergency_monotone (e : ElementData) (p err : Int)
    (he : e.emergency_flag = true) :
    (Element_HandleOffline e false p err).emergency_flag = true := by
  simp only [Element_HandleOffline, Bool.false_eq_true, if_false]
  split_ifs <;> first | rfl | exact he

/-- Helper: the offline branch sets the emergency flag once the counter has
passed `OFFLINE_EMERGENCY_TIME` and the pitch magnitude is above the wall
threshold. -/
theorem handleOffline_emergency_sets (e : ElementData) (p err : Int)
    (hcnt : (e.offline_cnt + 1) % 256 > OFFLINE_EMERGENCY_TIME)
    (hp : ABS_VALUE p > OFFLINE_WALL_PITCH_THRESHOLD) :
    (Element_HandleOffline e false p err).emergency_flag = true := by
  simp only [Element_HandleOffline, Bool.false_eq_true, if_false]
  rw [if_pos hcnt, if_pos hp]

/-- Helper: an online call to the handler clears the emergency flag and the
offline counter. -/
theorem handleOffline_online (e : ElementData) (p err : Int) :
    (Element_HandleOffline e true p err).emergency_flag = false ∧
      (Element_HandleOffline e true p err).offline_cnt = 0 :=
  ⟨rfl, rfl⟩

/-- Helper: an offline tick of `Element_Update` increments `offline_cnt`
(mod 256), whatever else the state machine does. -/
theorem update_offline_cnt (e : ElementData) (d : DetectorStatics)
    (i : ElementInputs) (hoff : i.is_online = false) :
    ((Element_Update e d i).1).offline_cnt = (e.offline_cnt + 1) % 256 := by
  unfold Element_Update
  dsimp only
  rw [hoff]
  split_ifs with hem
  · rw [handleOffline_offline_cnt]
    rfl
  · rw [stateMachine_offline_cnt, handleOffline_offline_cnt]
    rfl

/-- Helper: an offline tick never clears an already-set emergency flag. -/
theorem update_emergency_monotone (e : ElementData) (d : DetectorStatics)
    (i : ElementInputs) (hoff : i.is_online = false)
    (he : e.emergency_flag = true) :
    ((Element_Update e d i).1).emergency_flag = true := by
  unfold Element_Update
  dsimp only
  rw [hoff]
  have hset := handleOffline_emergency_monotone
    (Element_PushHistory e i.inductor_error) i.pitch_angle i.inductor_error
    (show (Element_PushHistory e i.inductor_error).emergency_flag = true from he)
  rw [if_pos hset]
  exact hset

/-- Helper: an offline tick sets the emergency flag once the counter passes
the threshold while the pitch magnitude is above the wall threshold. -/
theorem update_emergency_sets (e : ElementData) (d : DetectorStatics)
    (i : ElementInputs) (hoff : i.is_online = false)
    (hcnt : (e.offline_cnt + 1) % 256 > OFFLINE_EMERGENCY_TIME)
    (hp : ABS_VALUE i.pitch_angle > OFFLINE_WALL_PITCH_THRESHOLD) :
    ((Element_Update e d i).1).emergency_flag = true := by
  unfold Element_Update
  dsimp only
  rw [hoff]
  have hset := handleOffline_emergency_sets (Element_PushHistory e i.inductor_error)
    i.pitch_angle i.inductor_error hcnt hp
  rw [if_pos hset]
  exact hset

/-- Helper: an online tick of `Element_Update` clears the emergency flag and
the offline counter. -/
theorem update_online (e : ElementData) (d : DetectorStatics)
    (i : ElementInputs) (hon : i.is_online = true) :
    ((Element_Update e d i).1).emergency_flag = false ∧
      ((Element_Update e d i).1).offline_cnt = 0 := by
  unfold Element_Update
  dsimp only
  rw [hon]
  rw [if_neg (by rw [(handleOffline_online _ _ _).1]; simp)]
  exact ⟨by rw [stateMachine_emergency]; exact (handleOffline_online _ _ _).1,
    by rw [stateMachine_offline_cnt]; exact (handleOffline_online _ _ _).2⟩

/-- Helper: over a run of offline ticks the counter advances by the length
of the run (mod 256). -/
theorem run_offline_cnt (l : List ElementInputs) :
    ∀ (e : ElementData) (d : DetectorStatics),
      (∀ i ∈ l, i.is_online = false) → e.offline_cnt < 256 →
      ((Element_Run (e, d) l).1).offline_cnt =
        (e.offline_cnt + l.length) % 256 := by
  induction l with
  | nil =>
    intro e d _ hc
    simpa using (Nat.mod_eq_of_lt hc).symm
  | cons x rest ih =>
    intro e d hall hc
    have hx : x.is_online = false := hall x (List.mem_cons_self _ _)
    rcases hu : Element_Update e d x with ⟨e', d'⟩
    have hcnt' : e'.offline_cnt = (e.offline_cnt + 1) % 256 := by
      rw [← update_offline_cnt e d x hx, hu]
    have hrun : Element_Run (e, d) (x :: rest) = Element_Run (e', d') rest := by
      show Element_Run (Element_Update e d x) rest = _
      rw [hu]
    rw [hrun, ih e' d' (fun i hi => hall i (List.mem_cons_of_mem _ hi))
      (by omega), hcnt']
    simp only [List.length_cons]
    omega

/-- Helper: an already-set emergency flag survives any run of offline
ticks. -/
theorem run_emergency_keep (l : List ElementInputs) :
    ∀ (e : ElementData) (d : DetectorStatics),
      (∀ i ∈ l, i.is_online = false) → e.emergency_flag = true →
      ((Element_Run (e, d) l).1).emergency_flag = true := by
  induction l with
  | nil => intro e d _ he; exact he
  | cons x rest ih =>
    intro e d hall he
    have hx : x.is_online = false := hall x (List.mem_cons_self _ _)
    rcases hu : Element_Update e d x with ⟨e', d'⟩
    have he' : e'.emergency_flag = true := by
      rw [← update_emergency_monotone e d x hx he, hu]
    have hrun : Element_Run (e, d) (x :: rest) = Element_Run (e', d') rest := by
      show Element_Run (Element_Update e d x) rest = _
      rw [hu]
    rw [hrun]
    exact ih e' d' (fun i hi => hall i (List.mem_cons_of_mem _ hi)) he'

set_option maxRecDepth 4000 in
/-- Helper (pure arithmetic, decided exhaustively): starting from any
`uint8` counter value, within 30 increments mod 256 the counter exceeds the
emergency threshold at least once. -/
theorem offline_cnt_hits_threshold :
    ∀ c : Nat, c < 256 → ∃ k, k < 30 ∧
      (c + k + 1) % 256 > OFFLINE_EMERGENCY_TIME := by
  decide

/-- C9: if the recognizer processes 30 consecutive ticks with
`is_online = false` while the reported pitch magnitude exceeds the wall
threshold, the emergency flag is set afterwards (the code in fact sets it
as soon as the `uint8` counter exceeds `OFFLINE_EMERGENCY_TIME = 20`); one
single subsequent online tick clears the emergency flag and resets the
offline counter to 0. -/
theorem offline_30_sets_emergency_online_tick_clears
    (e : ElementData) (d : DetectorStatics) (l : List ElementInputs)
    (j : ElementInputs)
    (hlen : l.length = 30)
    (hall : ∀ i ∈ l, i.is_online = false ∧
      ABS_VALUE i.pitch_angle > OFFLINE_WALL_PITCH_THRESHOLD)
    (hcnt : e.offline_cnt < 256)
    (hj : j.is_online = true) :
    ((Element_Run (e, d) l).1).emergency_flag = true ∧
    ((Element_Update (Element_Run (e, d) l).1 (Element_Run (e, d) l).2 j).1).emergency_flag
        = false ∧
    ((Element_Update (Element_Run (e, d) l).1 (Element_Run (e, d) l).2 j).1).offline_cnt
        = 0 := by
  have hmain : ((Element_Run (e, d) l).1).emergency_flag = true := by
    obtain ⟨k, hk30, hgt⟩ := offline_cnt_hits_threshold e.offline_cnt hcnt
    have hklen : k < l.length := by omega
    rcases hrunk : Element_Run (e, d) (l.take k) with ⟨e1, d1⟩
    have hcnt1 : e1.offline_cnt = (e.offline_cnt + k) % 256 := by
      have h0 := run_offline_cnt (l.take k) e d
        (fun i hi => (hall i (List.mem_of_mem_take hi)).1) hcnt
      rw [hrunk] at h0
      rw [h0, List.length_take, Nat.min_eq_left (le_of_lt hklen)]
    have hcnt1lt : e1.offline_cnt < 256 := by omega
    rcases hstep : Element_Update e1 d1 l[k] with ⟨e2, d2⟩
    have hxk := hall l[k] (List.getElem_mem hklen)
    have he2 : e2.emergency_flag = true := by
      have h1 := update_emergency_sets e1 d1 l[k] hxk.1
        (by
          rw [hcnt1]
          have : ((e.offline_cnt + k) % 256 + 1) % 256 =
              (e.offline_cnt + k + 1) % 256 := by omega
          rw [this]
          exact hgt) hxk.2
      rw [hstep] at h1
      exact h1
    have hfin : Element_Run (e, d) l = Element_Run (e2, d2) (l.drop (k + 1)) := by
      conv_lhs => rw [← List.take_append_drop k l]
      show (l.take k ++ l.drop k).foldl _ _ = _
      rw [List.foldl_append]
      show Element_Run (Element_Run (e, d) (l.take k)) (l.drop k) = _
      rw [hrunk, List.drop_eq_getElem_cons hklen]
      show Element_Run (Element_Update e1 d1 l[k]) (l.drop (k + 1)) = _
      rw [hstep]
    rw [hfin]
    exact run_emergency_keep (l.drop (k + 1)) e2 d2
      (fun i hi => (hall i (List.mem_of_mem_drop hi)).1) he2
  exact ⟨hmain, (update_online _ _ j hj).1, (update_online _ _ j hj).2⟩

/-- Witness for C9: from the freshly initialized recognizer, 30 offline
ticks at pitch 30° set the emergency flag and one online tick clears it. -/
theorem offline_30_sets_emergency_online_tick_clears_witness :
    (List.replicate 30 (⟨0, 0, 0, 0, false, 0, 30, 0⟩ : ElementInputs)).length
        = 30 ∧
    Element_Init.offline_cnt < 256 ∧
    (⟨0, 0, 0, 0, true, 0, 0, 0⟩ : ElementInputs).is_online = true ∧
    ((Element_Run (Element_Init, ⟨0, 0, 0⟩)
        (List.replicate 30 (⟨0, 0, 0, 0, false, 0, 30, 0⟩ : ElementInputs))).1).emergency_flag
        = true :=
  ⟨by simp, by decide, rfl,
    (offline_30_sets_emergency_online_tick_clears Element_Init ⟨0, 0, 0⟩
      (List.replicate 30 ⟨0, 0, 0, 0, false, 0, 30, 0⟩)
      ⟨0, 0, 0, 0, true, 0, 0, 0⟩ (by simp)
      (fun i hi => by
        rcases List.eq_of_mem_replicate hi with rfl
        exact ⟨rfl, by decide⟩)
      (by decide) rfl).1⟩

/-- Counterexample for C7: with the system idle and the recognizer mid-way
through a crossing (state `Running`), processing a start command leaves the
recognizer state machine untouched — it stays `Running` instead of being
reset to `Idle`. -/
theorem start_cmd_no_element_reset_counterexample :
    ((System_ProcessCmd
        { system :=
            { state := SYS_STATE_IDLE, target_speed := 0,
              pid_speed_left := PID_Init (fun _ => 0) (fun _ => 0) (fun _ => 0) 10000,
              pid_speed_right := PID_Init (fun _ => 0) (fun _ => 0) (fun _ => 0) 10000,
              pid_direction := PID_Init (fun _ => 0) (fun _ => 0) (fun _ => 0) 8000,
              pitch_angle := 0, roll_angle := 0, yaw_rate := 0,
              motor_left_pwm := 0, motor_right_pwm := 0 },
          element := { Element_Init with
            state := ELEM_STATE_RUNNING, current_element := ELEM_CROSS },
          detect := ⟨0, 0, 0⟩ }
        BT_CMD_START 0).1).element.state = ELEM_STATE_RUNNING ∧
      ELEM_STATE_RUNNING ≠ ELEM_STATE_IDLE :=
  ⟨rfl, by decide⟩

/-- C7 (amended): processing a start command while the system is not already
`Running` resets the three PID controllers via `PID_Reset` (error history,
integral and output zeroed, gains and clamps kept) and enters the running
state; the element-recognizer state is not reset — it is left entirely
unchanged (`System_CmdCallback` never touches `g_element`). -/
theorem start_cmd_resets_pids_element_unchanged (g : GlobalState) (value : Int)
    (h : g.system.state ≠ SYS_STATE_RUNNING) :
    ((System_ProcessCmd g BT_CMD_START value).1).system.pid_speed_left =
        PID_Reset g.system.pid_speed_left ∧
      ((System_ProcessCmd g BT_CMD_START value).1).system.pid_speed_right =
        PID_Reset g.system.pid_speed_right ∧
      ((System_ProcessCmd g BT_CMD_START value).1).system.pid_direction =
        PID_Reset g.system.pid_direction ∧
      ((System_ProcessCmd g BT_CMD_START value).1).system.state =
        SYS_STATE_RUNNING ∧
      ((System_ProcessCmd g BT_CMD_START value).1).element = g.element := by
  unfold System_ProcessCmd System_CmdCallback System_Start
  dsimp only
  rw [if_pos h]
  split_ifs <;> exact ⟨rfl, rfl, rfl, rfl, rfl⟩

/-- Witness for C7 (amended) at an idle concrete state. -/
theorem start_cmd_resets_pids_element_unchanged_witness :
    ({ system :=
        { state := SYS_STATE_IDLE, target_speed := 0,
          pid_speed_left := PID_Init (fun _ => 0) (fun _ => 0) (fun _ => 0) 10000,
          pid_speed_right := PID_Init (fun _ => 0) (fun _ => 0) (fun _ => 0) 10000,
          pid_direction := PID_Init (fun _ => 0) (fun _ => 0) (fun _ => 0) 8000,
          pitch_angle := 0, roll_angle := 0, yaw_rate := 0,
          motor_left_pwm := 0, motor_right_pwm := 0 },
       element := Element_Init, detect := ⟨0, 0, 0⟩ } : GlobalState).system.state
        ≠ SYS_STATE_RUNNING ∧
    ((System_ProcessCmd
        { system :=
            { state := SYS_STATE_IDLE, target_speed := 0,
              pid_speed_left := PID_Init (fun _ => 0) (fun _ => 0) (fun _ => 0) 10000,
              pid_speed_right := PID_Init (fun _ => 0) (fun _ => 0) (fun _ => 0) 10000,
              pid_direction := PID_Init (fun _ => 0) (fun _ => 0) (fun _ => 0) 8000,
              pitch_angle := 0, roll_angle := 0, yaw_rate := 0,
              motor_left_pwm := 0, motor_right_pwm := 0 },
          element := Element_Init, detect := ⟨0, 0, 0⟩ }
        BT_CMD_START 0).1).element = Element_Init :=
  ⟨by decide,
    (start_cmd_resets_pids_element_unchanged _ 0 (by decide)).2.2.2.2⟩

/-- Counterexample for C8: in the `Running` state on a crossing
(`ELEM_CROSS`), one tick with `encoder_delta = 10` adds 20 to the distance
accumulator — the crossing handler adds `encoder_delta` a second time — so
"adds exactly `encoder_delta` once … for every element type" fails. -/
theorem running_cross_double_distance_counterexample :
    ((Element_Update
        { Element_Init with
          state := ELEM_STATE_RUNNING, current_element := ELEM_CROSS }
        ⟨0, 0, 0⟩
        ⟨0, 50, 50, 100, true, 32, 0, 10⟩).1).distance_cnt = 20 ∧
      (20 : Int) ≠ 0 + 10 := by
  constructor
  · decide
  · decide

/-- Helper: in the `Running` state the tick adds `gyro_z / 16` to the yaw
integral exactly once, whatever the element type. -/
theorem stateMachine_running_yaw (e : ElementData) (d : DetectorStatics)
    (i : ElementInputs) (hrun : e.state = ELEM_STATE_RUNNING) :
    ((Element_StateMachine e d i).1).yaw_integral =
      e.yaw_integral + Int.tdiv i.gyro_z 16 := by
  unfold Element_StateMachine
  rw [hrun]
  dsimp only
  split <;> first | (split_ifs <;> rfl) | rfl

/-- Helper: in the `Running` state, for every element type except the
crossing, the tick adds `encoder_delta` to the distance accumulator exactly
once. -/
theorem stateMachine_running_distance_noncross (e : ElementData)
    (d : DetectorStatics) (i : ElementInputs)
    (hrun : e.state = ELEM_STATE_RUNNING)
    (hne : e.current_element ≠ ELEM_CROSS) :
    ((Element_StateMachine e d i).1).distance_cnt =
      e.distance_cnt + i.encoder_delta := by
  unfold Element_StateMachine
  rw [hrun]
  dsimp only
  split <;>
    first
      | (split_ifs <;> rfl)
      | rfl
      | (rename_i heq; exact absurd heq hne)

/-- Helper: in the `Running` state on the crossing element the tick adds
`encoder_delta` to the distance accumulator twice. -/
theorem stateMachine_running_distance_cross (e : ElementData)
    (d : DetectorStatics) (i : ElementInputs)
    (hrun : e.state = ELEM_STATE_RUNNING)
    (hc : e.current_element = ELEM_CROSS) :
    ((Element_StateMachine e d i).1).distance_cnt =
      e.distance_cnt + i.encoder_delta + i.encoder_delta := by
  unfold Element_StateMachine
  rw [hrun]
  dsimp only
  split <;>
    first
      | (split_ifs <;> rfl)
      | (rename_i heq; rw [hc] at heq; exact absurd heq (by decide))

/-- C8 (amended): on every tick processed in the `Running` state with the
emergency gate clear, the recognizer adds `gyro_z / 16` to `yaw_integral`
exactly once for every element type, and adds `encoder_delta` to
`distance_cnt` exactly once for every element type except `ELEM_CROSS`, for
which the crossing handler adds it a second time (twice per tick in
total). -/
theorem running_tick_accumulation (e : ElementData) (d : DetectorStatics)
    (i : ElementInputs) (hrun : e.state = ELEM_STATE_RUNNING)
    (hgate : (Element_HandleOffline (Element_PushHistory e i.inductor_error)
        i.is_online i.pitch_angle i.inductor_error).emergency_flag = false) :
    ((Element_Update e d i).1).yaw_integral =
        e.yaw_integral + Int.tdiv i.gyro_z 16 ∧
      (e.current_element ≠ ELEM_CROSS →
        ((Element_Update e d i).1).distance_cnt =
          e.distance_cnt + i.encoder_delta) ∧
      (e.current_element = ELEM_CROSS →
        ((Element_Update e d i).1).distance_cnt =
          e.distance_cnt + i.encoder_delta + i.encoder_delta) := by
  have hupd : Element_Update e d i =
      Element_StateMachine (Element_HandleOffline
        (Element_PushHistory e i.inductor_error) i.is_online i.pitch_angle
        i.inductor_error) d i := by
    unfold Element_Update
    dsimp only
    rw [if_neg (by rw [hgate]; simp)]
  have hst : (Element_HandleOffline (Element_PushHistory e i.inductor_error)
      i.is_online i.pitch_angle i.inductor_error).state = ELEM_STATE_RUNNING :=
    ((handleOffline_fields _ _ _ _).1).trans hrun
  have hfields := handleOffline_fields (Element_PushHistory e i.inductor_error)
    i.is_online i.pitch_angle i.inductor_error
  rw [hupd]
  refine ⟨?_, fun hne => ?_, fun hc => ?_⟩
  · rw [stateMachine_running_yaw _ d i hst, hfields.2.2.2.1]
    rfl
  · rw [stateMachine_running_distance_noncross _ d i hst
      (by rw [hfields.2.1]; exact hne), hfields.2.2.1]
    rfl
  · rw [stateMachine_running_distance_cross _ d i hst
      (by rw [hfields.2.1]; exact hc), hfields.2.2.1]
    rfl

/-- Witness for C8 (amended): one `Running` tick on a 90° turn with
`encoder_delta = 10` and `gyro_z = 32`. -/
theorem running_tick_accumulation_witness :
    ({ Element_Init with
        state := ELEM_STATE_RUNNING, current_element := ELEM_TURN_90 } :
        ElementData).state
        = ELEM_STATE_RUNNING ∧
    ((Element_Update
        { Element_Init with
          state := ELEM_STATE_RUNNING, current_element := ELEM_TURN_90 }
        ⟨0, 0, 0⟩
        ⟨0, 50, 50, 100, true, 32, 0, 10⟩).1).yaw_integral = 0 + Int.tdiv 32 16 :=
  ⟨rfl,
    (running_tick_accumulation
      { Element_Init with
        state := ELEM_STATE_RUNNING, current_element := ELEM_TURN_90 }
      ⟨0, 0, 0⟩ ⟨0, 50, 50, 100, true, 32, 0, 10⟩ rfl rfl).1⟩

/-- C1 (code evaluated at the failing input): on a control tick with the
recognizer's emergency flag set (and the key gate allowing the run), the
orchestrator `System_Control` does not override the pipeline: it emits the
PID-computed wheel PWMs (`Motor_SetSpeed 150 150` here), not a braking/hold
command, and the emitted command is identical to the one computed with the
emergency flag clear — `System_Control` never consults the element module. -/
theorem control_tick_ignores_emergency :
    (System_ControlTick 10000
        { system :=
            { state := SYS_STATE_RUNNING, target_speed := 50,
              pid_speed_left := PID_Init (fun e => e) (fun e => e) (fun e => e) 10000,
              pid_speed_right := PID_Init (fun e => e) (fun e => e) (fun e => e) 10000,
              pid_direction := PID_Init (fun _ => 0) (fun _ => 0) (fun _ => 0) 8000,
              pitch_angle := 0, roll_angle := 0, yaw_rate := 0,
              motor_left_pwm := 0, motor_right_pwm := 0 },
          element := { Element_Init with emergency_flag := true },
          detect := ⟨0, 0, 0⟩ }
        { key_run := true, speed_left_feedback := 0, speed_right_feedback := 0,
          vector := { left_magnitude := 0, right_magnitude := 0, error := 0,
                      sum := 0, is_online := false },
          acc_x := 0, acc_z := 0, gyro_z := 0 }).2
      = some (MotorCommand.setSpeed 150 150) ∧
    ((System_ControlTick 10000
        { system :=
            { state := SYS_STATE_RUNNING, target_speed := 50,
              pid_speed_left := PID_Init (fun e => e) (fun e => e) (fun e => e) 10000,
              pid_speed_right := PID_Init (fun e => e) (fun e => e) (fun e => e) 10000,
              pid_direction := PID_Init (fun _ => 0) (fun _ => 0) (fun _ => 0) 8000,
              pitch_angle := 0, roll_angle := 0, yaw_rate := 0,
              motor_left_pwm := 0, motor_right_pwm := 0 },
          element := { Element_Init with emergency_flag := true },
          detect := ⟨0, 0, 0⟩ }
        { key_run := true, speed_left_feedback := 0, speed_right_feedback := 0,
          vector := { left_magnitude := 0, right_magnitude := 0, error := 0,
                      sum := 0, is_online := false },
          acc_x := 0, acc_z := 0, gyro_z := 0 }).1).element.emergency_flag
      = true ∧
    (System_ControlTick 10000
        { system :=
            { state := SYS_STATE_RUNNING, target_speed := 50,
              pid_speed_left := PID_Init (fun e => e) (fun e => e) (fun e => e) 10000,
              pid_speed_right := PID_Init (fun e => e) (fun e => e) (fun e => e) 10000,
              pid_direction := PID_Init (fun _ => 0) (fun _ => 0) (fun _ => 0) 8000,
              pitch_angle := 0, roll_angle := 0, yaw_rate := 0,
              motor_left_pwm := 0, motor_right_pwm := 0 },
          element := { Element_Init with emergency_flag := false },
          detect := ⟨0, 0, 0⟩ }
        { key_run := true, speed_left_feedback := 0, speed_right_feedback := 0,
          vector := { left_magnitude := 0, right_magnitude := 0, error := 0,
                      sum := 0, is_online := false },
          acc_x := 0, acc_z := 0, gyro_z := 0 }).2
      = some (MotorCommand.setSpeed 150 150) := by
  refine ⟨?_, rfl, ?_⟩ <;> decide

/-- Helper: unfolding equation for `checkRange` at fuel 0. -/
theorem checkRange_zero (lo n : Nat) : checkRange 0 lo n = (n == 0) := rfl

/-- Helper: unfolding equation for `checkRange` at successor fuel. -/
theorem checkRange_succ (fuel lo n : Nat) :
    checkRange (fuel + 1) lo n =
      (if n == 0 then true
       else if n == 1 then sqrtCheck lo
       else checkRange fuel lo (n / 2) &&
         checkRange fuel (lo + n / 2) (n - n / 2)) := rfl

/-- Helper: a passed `checkRange` means `sqrtCheck` passes on every point of
the interval. -/
theorem checkRange_correct (fuel : Nat) : ∀ lo n, checkRange fuel lo n = true →
    ∀ v, lo ≤ v → v < lo + n → sqrtCheck v = true := by
  induction fuel with
  | zero =>
    intro lo n h v h1 h2
    rw [checkRange_zero] at h
    have : n = 0 := by simpa using h
    omega
  | succ fuel ih =>
    intro lo n h v h1 h2
    rw [checkRange_succ] at h
    by_cases h0 : n = 0
    · omega
    · rw [if_neg (by simpa using h0)] at h
      by_cases hn1 : n = 1
      · rw [if_pos (by simpa using hn1)] at h
        have hv : v = lo := by omega
        rwa [hv]
      · rw [if_neg (by simpa using hn1)] at h
        rw [Bool.and_eq_true] at h
        rcases Nat.lt_or_ge v (lo + n / 2) with hv | hv
        · exact ih lo (n / 2) h.1 v h1 hv
        · exact ih (lo + n / 2) (n - n / 2) h.2 v hv (by omega)

/-- Helper: reading off the two integer square-root bounds from a passed
`sqrtCheck`. -/
theorem sqrtCheck_bounds (v : Nat) (h : sqrtCheck v = true) :
    (fast_sqrt v - 1) * (fast_sqrt v - 1) ≤ v ∧
      v ≤ (fast_sqrt v + 1) * (fast_sqrt v + 1) := by
  unfold sqrtCheck at h
  simp only [Bool.and_eq_true, Nat.ble_eq] at h
  exact h

set_option maxHeartbeats 2000000 in
/-- Exhaustive kernel check of `sqrtCheck` on `[0, 8192)`. -/
theorem sqrt_chunk0 : checkRange 17 0 8192 = true := by decide

set_option maxHeartbeats 2000000 in
/-- Exhaustive kernel check of `sqrtCheck` on `[8192, 16384)`. -/
theorem sqrt_chunk1 : checkRange 17 8192 8192 = true := by decide

set_option maxHeartbeats 2000000 in
/-- Exhaustive kernel check of `sqrtCheck` on `[16384, 24576)`. -/
theorem sqrt_chunk2 : checkRange 17 16384 8192 = true := by decide

set_option maxHeartbeats 2000000 in
/-- Exhaustive kernel check of `sqrtCheck` on `[24576, 32768)`. -/
theorem sqrt_chunk3 : checkRange 17 24576 8192 = true := by decide

set_option maxHeartbeats 2000000 in
/-- Exhaustive kernel check of `sqrtCheck` on `[32768, 40960)`. -/
theorem sqrt_chunk4 : checkRange 17 32768 8192 = true := by decide

set_option maxHeartbeats 2000000 in
/-- Exhaustive kernel check of `sqrtCheck` on `[40960, 49152)`. -/
theorem sqrt_chunk5 : checkRange 17 40960 8192 = true := by decide

set_option maxHeartbeats 2000000 in
/-- Exhaustive kernel check of `sqrtCheck` on `[49152, 57344)`. -/
theorem sqrt_chunk6 : checkRange 17 49152 8192 = true := by decide

set_option maxHeartbeats 2000000 in
/-- Exhaustive kernel check of `sqrtCheck` on `[57344, 65536)`. -/
theorem sqrt_chunk7 : checkRange 17 57344 8192 = true := by decide

/-- Helper: `sqrtCheck` passes on the whole 16-bit input domain. -/
theorem sqrtCheck_all (v : Nat) (h : v < 65536) : sqrtCheck v = true := by
  rcases Nat.lt_or_ge v 8192 with h1 | h1
  · exact checkRange_correct 17 0 8192 sqrt_chunk0 v (Nat.zero_le _) (by omega)
  rcases Nat.lt_or_ge v 16384 with h2 | h2
  · exact checkRange_correct 17 8192 8192 sqrt_chunk1 v h1 (by omega)
  rcases Nat.lt_or_ge v 24576 with h3 | h3
  · exact checkRange_correct 17 16384 8192 sqrt_chunk2 v h2 (by omega)
  rcases Nat.lt_or_ge v 32768 with h4 | h4
  · exact checkRange_correct 17 24576 8192 sqrt_chunk3 v h3 (by omega)
  rcases Nat.lt_or_ge v 40960 with h5 | h5
  · exact checkRange_correct 17 32768 8192 sqrt_chunk4 v h4 (by omega)
  rcases Nat.lt_or_ge v 49152 with h6 | h6
  · exact checkRange_correct 17 40960 8192 sqrt_chunk5 v h5 (by omega)
  rcases Nat.lt_or_ge v 57344 with h7 | h7
  · exact checkRange_correct 17 49152 8192 sqrt_chunk6 v h6 (by omega)
  · exact checkRange_correct 17 57344 8192 sqrt_chunk7 v h7 (by omega)

/-- C3: for every input in `[0, 65535]`, `fast_sqrt` differs from the exact
real square root by at most 1 unit. -/
theorem fast_sqrt_within_one_of_real_sqrt (val : Nat) (h : val ≤ 65535) :
    |(fast_sqrt val : ℝ) - Real.sqrt val| ≤ 1 := by
  obtain ⟨hlo, hhi⟩ := sqrtCheck_bounds val (sqrtCheck_all val (by omega))
  set r := fast_sqrt val with hr
  have hupper : Real.sqrt val ≤ (r : ℝ) + 1 := by
    have hcast : (val : ℝ) ≤ ((r : ℝ) + 1) ^ 2 := by
      have : (val : ℝ) ≤ ((r + 1 : ℕ) : ℝ) * ((r + 1 : ℕ) : ℝ) := by
        exact_mod_cast hhi
      push_cast at this
      nlinarith [this]
    have := Real.sqrt_le_sqrt hcast
    rwa [Real.sqrt_sq (by positivity)] at this
  have hlower : (r : ℝ) - 1 ≤ Real.sqrt val := by
    rcases Nat.eq_zero_or_pos r with hz | hp
    · rw [hz]
      have := Real.sqrt_nonneg (val : ℝ)
      norm_num
      linarith
    · have hcast : (((r - 1 : ℕ) : ℝ)) ^ 2 ≤ (val : ℝ) := by
        have : ((r - 1 : ℕ) : ℝ) * ((r - 1 : ℕ) : ℝ) ≤ (val : ℝ) := by
          exact_mod_cast hlo
        nlinarith [this]
      have hs := Real.sqrt_le_sqrt hcast
      rw [Real.sqrt_sq (by positivity)] at hs
      have hsub : ((r - 1 : ℕ) : ℝ) = (r : ℝ) - 1 := by
        have : (1 : ℕ) ≤ r := hp
        push_cast [Nat.cast_sub this]
        ring
      rwa [hsub] at hs
  rw [abs_le]
  constructor <;> linarith

/-- Witness for C3 at input 20000. -/
theorem fast_sqrt_within_one_of_real_sqrt_witness :
    20000 ≤ 65535 ∧ |(fast_sqrt 20000 : ℝ) - Real.sqrt 20000| ≤ 1 :=
  ⟨by decide, fast_sqrt_within_one_of_real_sqrt 20000 (by decide)⟩

end Smartcar
